import Mathlib

/-!
Shallow embedding of the registry facade
(`components/registry-facade/pkg/registry/registry.go`) together with the
parts of its runtime environment (Go standard library behaviour) that the
verified claims depend on.  Definitions are translated from the Go source;
the few places where the deciding Go code is not available are modelled
from the specification and say so in their doc comment.
-/

namespace RegistryFacade

/-! ## Path model (Go `path/filepath.Join` on two elements)

`filepath.Join(a, b)` concatenates the non-empty elements with a single
separator and cleans the result.  We model it for already-clean inputs,
which is all the registry ever passes: the cleaning step is omitted. -/

/-- Models Go `filepath.Join(a, b)` for already-clean inputs. -/
def joinPath (a b : String) : String :=
  if a = "" then b else a ++ "/" ++ b

/-! ## Configuration (`Config` struct, registry.go lines 41-66) -/

/-- One entry of `Config.StaticLayer` (registry.go lines 44-47). -/
structure StaticLayerCfg where
  ref : String
  typ : String
deriving DecidableEq

/-- `Config.RemoteSpecProvider.TLS` (registry.go lines 50-54). -/
structure RemoteTLS where
  authority : String
  certificate : String
  privateKey : String
deriving DecidableEq

/-- `Config.RemoteSpecProvider` (registry.go lines 48-55). -/
structure RemoteSpecCfg where
  addr : String
  tls : Option RemoteTLS
deriving DecidableEq

/-- `Config.TLS` (registry.go lines 58-61). -/
structure ServerTLS where
  certificate : String
  privateKey : String
deriving DecidableEq

/-- `Config.Handover` (registry.go lines 62-65). -/
structure HandoverCfg where
  enabled : Bool
  sockets : String
deriving DecidableEq

/-- The registry configuration (registry.go lines 41-66).  `prefixStr`
stands for the Go field `Prefix`. -/
structure Config where
  port : Nat
  prefixStr : String
  staticLayer : List StaticLayerCfg
  remoteSpecProvider : Option RemoteSpecCfg
  store : String
  requireAuth : Bool
  tls : Option ServerTLS
  handover : HandoverCfg
deriving DecidableEq

/-- Process environment.  `telepresenceRoot` is `os.Getenv("TELEPRESENCE_ROOT")`;
Go returns the empty string when the variable is unset. -/
structure Env where
  telepresenceRoot : String
deriving DecidableEq

/-! ## TELEPRESENCE_ROOT path resolution

The same conditional-join pattern appears three times in the source:
the store path (registry.go lines 86-89), the remote-spec-provider TLS
material (lines 148-157) and the HTTPS serving certificate (lines 268-272). -/

/-- The root-prefixing step `if tproot != "" { p = filepath.Join(tproot, p) }`. -/
def applyTelepresenceRoot (root p : String) : String :=
  if root = "" then p else joinPath root p

/-- Blob store path as opened by `NewRegistry` (registry.go lines 86-90). -/
def resolvedStorePath (env : Env) (cfg : Config) : String :=
  applyTelepresenceRoot env.telepresenceRoot cfg.store

/-- The remote-spec-provider TLS file paths (`ca`, `crt`, `key`) as loaded by
`NewRegistry` (registry.go lines 148-157). -/
def resolvedRemoteTLSPaths (env : Env) (t : RemoteTLS) : String × String × String :=
  (applyTelepresenceRoot env.telepresenceRoot t.authority,
   applyTelepresenceRoot env.telepresenceRoot t.certificate,
   applyTelepresenceRoot env.telepresenceRoot t.privateKey)

/-- The HTTPS serving certificate and key paths as passed to `ServeTLS`
(registry.go lines 268-274). -/
def resolvedServeTLSPaths (env : Env) (t : ServerTLS) : String × String :=
  (applyTelepresenceRoot env.telepresenceRoot t.certificate,
   applyTelepresenceRoot env.telepresenceRoot t.privateKey)

/-- Modelled from the spec: `NewFileLayerSource` (called at registry.go line 119
with the unmodified `sl.Ref`) is not among the sources at hand; the spec states
that the root-prefix variable, when set, is prepended to all configured file
paths, so the static file layer ref resolves with the same prefix rule. -/
def resolvedStaticFileRef (env : Env) (ref : String) : String :=
  applyTelepresenceRoot env.telepresenceRoot ref

/-! ## Directory scan of `ReceiveHandover` (registry.go lines 304-330)

Go file modes are `uint32` values; `os.ModeSocket = 1 << 24` and
`DirEntry.Type()` returns the type bits of the mode (each type bit is at
least `1 << 19`).  The source filters entries with
`f.Type()*os.ModeSocket == 0` - a `uint32` multiplication. -/

/-- `os.ModeSocket = 1 << 24`. -/
def modeSocket : Nat := 16777216

/-- A directory entry as seen through `os.ReadDir`: its name and the
file-mode type bits returned by `DirEntry.Type()`. -/
structure DirEntry where
  name : String
  typeBits : Nat
deriving DecidableEq

/-- `uint32` multiplication: Go `FileMode` arithmetic wraps modulo `2^32`. -/
def uint32Mul (a b : Nat) : Nat := a * b % 4294967296

/-- Go string comparison `a < b`: lexicographic, by character. -/
def goStringLess : List Char → List Char → Bool
  | [], [] => false
  | [], _ :: _ => true
  | _ :: _, [] => false
  | a :: as, b :: bs =>
    if a < b then true
    else if b < a then false
    else goStringLess as bs

/-- The entry filter the doc comment of `ReceiveHandover` intends: the entry
is a Unix socket, i.e. its type bits contain `os.ModeSocket`. -/
def isUnixSocket (f : DirEntry) : Bool := f.typeBits &&& modeSocket != 0

/-- The scan loop of `ReceiveHandover` (registry.go lines 314-322): entries
whose `f.Type()*os.ModeSocket` is zero are skipped, otherwise the running
maximum filename is updated (`if f.Name() > fn`). -/
def selectHandoverName : List DirEntry → String → String
  | [], fn => fn
  | f :: fs, fn =>
    if uint32Mul f.typeBits modeSocket = 0 then selectHandoverName fs fn
    else if goStringLess fn.data f.name.data then selectHandoverName fs f.name
    else selectHandoverName fs fn

/-- Modelled from the spec: recipients pick the lexicographically greatest
Unix-socket filename.  This is the scan with the intended socket test
(`f.Type()&os.ModeSocket != 0`) in place of the multiplication. -/
def specSelectHandoverName : List DirEntry → String → String
  | [], fn => fn
  | f :: fs, fn =>
    if isUnixSocket f = false then specSelectHandoverName fs fn
    else if goStringLess fn.data f.name.data then specSelectHandoverName fs f.name
    else specSelectHandoverName fs fn

/-- Result of the registry-level `ReceiveHandover` (registry.go lines 306-330):
a directory read error, the `nil, nil` return, or an attempted listener
handover from a chosen socket path. -/
inductive ReceiveResult where
  | errRead
  | noSocket
  | attempt (socketPath : String)
deriving DecidableEq

/-- `ReceiveHandover` (registry.go lines 306-330).  `dir` is the outcome of
`os.ReadDir loc` (`none` models a read error).  The call into the handover
package at line 329 is modelled as `.attempt` with the chosen path. -/
def ReceiveHandover (loc : String) (dir : Option (List DirEntry)) : ReceiveResult :=
  if loc = "" then .noSocket
  else
    match dir with
    | none => .errRead
    | some fs =>
      let fn := selectHandoverName fs ""
      if fn = "" then .noSocket
      else .attempt (joinPath loc fn)

/-! ## Listener acquisition in `Serve` (registry.go lines 229-248) -/

/-- Outcome of the `ReceiveHandover` call as observed by `Serve`:
a listener was produced, the call returned an error, or it returned
`nil, nil`. -/
inductive RecvOutcome where
  | gotListener
  | failed
  | noneAvail
deriving DecidableEq

/-- Which listener `Serve` ends up binding. -/
inductive ListenPlan where
  | useHandover
  | bindOwn (addr : String)
deriving DecidableEq

/-- The listener-acquisition decision: whether a handover receive was
attempted (and with which context timeout, in seconds), and which listener
is used. -/
structure AcquireDecision where
  recvTimeoutSecs : Option Nat
  plan : ListenPlan
deriving DecidableEq

/-- `addr := fmt.Sprintf(":%d", reg.Config.Port)` (registry.go line 229). -/
def serveAddr (cfg : Config) : String := ":" ++ Nat.repr cfg.port

/-- The listener-acquisition phase of `Serve` (registry.go lines 229-248):
when handover is enabled and a sockets directory is configured,
`ReceiveHandover` runs under a 10-second context timeout; a receive error is
only logged, and whenever no listener was received `Serve` binds its own TCP
listener on the configured port. -/
def acquireListener (cfg : Config) (recv : RecvOutcome) : AcquireDecision :=
  if cfg.handover.enabled = true ∧ cfg.handover.sockets ≠ "" then
    match recv with
    | .gotListener => { recvTimeoutSecs := some 10, plan := .useHandover }
    | .failed => { recvTimeoutSecs := some 10, plan := .bindOwn (serveAddr cfg) }
    | .noneAvail => { recvTimeoutSecs := some 10, plan := .bindOwn (serveAddr cfg) }
  else { recvTimeoutSecs := none, plan := .bindOwn (serveAddr cfg) }

/-! ## The donor side: `OfferHandover` and the final select of `Serve`
(registry.go lines 277-294 and 337-373) -/

/-- How the offer goroutine of `OfferHandover` runs: the handover offer on
the Unix socket either fails, or succeeds and is followed by the server
shutdown (whose error, if any, is only logged). -/
inductive OfferStep where
  | offerFails
  | offerSucceeds (shutdownErr : Option String)
deriving DecidableEq

/-- The values sent on the `handingOverC` channel before it is closed
(registry.go lines 348-370): nothing on a failed offer, a single `true`
once the handover is initiated.  The channel is closed (yielding `false`
to a pending receive) when the goroutine returns, i.e. after `Shutdown`
has finished in the success case. -/
def hocSignals : OfferStep → List Bool
  | .offerFails => []
  | .offerSucceeds _ => [true]

/-- What the final `select` of `Serve` does (registry.go lines 283-293):
`err` is the value `Serve` returns (`none` is Go `nil`), and
`waitedShutdown` records whether the second receive (`<-hoc`, waiting for
the donor's server shutdown) happened. -/
structure SelectEnd where
  err : Option String
  waitedShutdown : Bool
deriving DecidableEq

/-- The final select of `Serve` (registry.go lines 283-293).  `srvErr` is a
server error delivered on `srvErrChan` before any handover signal (`none`
when the handover channel fires first).  Receiving from the closed channel
yields `false`, so a failed offer takes the `!handingOver` branch and
returns `nil`; an initiated handover waits for the close and returns
`nil`. -/
def serveSelect (srvErr : Option String) (run : OfferStep) : SelectEnd :=
  match srvErr with
  | some e => { err := some e, waitedShutdown := false }
  | none =>
    match hocSignals run with
    | true :: _ => { err := none, waitedShutdown := true }
    | _ => { err := none, waitedShutdown := false }

/-- `MustServe` (registry.go lines 296-302) logs any `Serve` error as fatal;
`log.Fatal` exits the process with code 1, otherwise the process exits
normally with code 0. -/
def mustServeExitCode : Option String → Nat
  | some _ => 1
  | none => 0

/-! ## The donor's socket name (`OfferHandover`, registry.go line 339) -/

/-- `fmt.Sprintf("rf-handover-%d.sock", time.Now().Unix())` with `now` the
Unix timestamp at the time of the offer. -/
def socketFileName (now : Nat) : String :=
  "rf-handover-" ++ Nat.repr now ++ ".sock"

/-- The socket path published by `OfferHandover`
(registry.go line 339): `filepath.Join(loc, fmt.Sprintf(...))`. -/
def offerSocketPath (loc : String) (now : Nat) : String :=
  joinPath loc (socketFileName now)

/-- Strips an expected head off a character list; `none` when the list does
not start with it. -/
def stripHead : List Char → List Char → Option (List Char)
  | [], cs => some cs
  | _ :: _, [] => none
  | e :: es, c :: cs => if c = e then stripHead es cs else none

/-- The spec's socket-file grammar `rf-handover-<unix-seconds>.sock`:
the literal head, one or more decimal digits, the literal `.sock` tail. -/
def isHandoverSocketName (s : String) : Bool :=
  match stripHead "rf-handover-".data s.data with
  | none => false
  | some rest =>
    decide (rest.takeWhile Char.isDigit ≠ []) &&
      rest.dropWhile Char.isDigit == ".sock".data

/-! ## HTTP model -/

/-- An HTTP request as far as the embedded handlers inspect it. -/
structure Request where
  method : String
  path : String
  authorization : Option String
deriving DecidableEq

/-- An HTTP response.  `errorCodes` represents the codes carried by a
registry v2 error envelope in the body (empty for non-envelope bodies);
this avoids modelling JSON serialization. -/
structure Response where
  status : Nat
  headers : List (String × String)
  body : String
  errorCodes : List String
deriving DecidableEq

/-- `handleAPIBase` (registry.go lines 408-415): 200 OK with
`Content-Type: application/json`, `Content-Length: 2` and the empty JSON
object as body. -/
def apiBaseResponse : Response :=
  { status := 200
    headers := [("Content-Type", "application/json"), ("Content-Length", "2")]
    body := "\x7b\x7d"
    errorCodes := [] }

/-- gorilla/mux serves a matched route that has no handler attached with
`http.NotFoundHandler()`: a plain-text 404. -/
def muxNotFoundResponse : Response :=
  { status := 404, headers := [], body := "404 page not found", errorCodes := [] }

/-! ## Routing (`distv2.RouterWithPrefix` plus `registerHandler`,
registry.go lines 209-210 and 394-404)

`RouterWithPrefix` registers the path patterns of all seven registry v2
routes; `registerHandler` attaches handlers only to the base, manifest and
blob routes and installs `handleAPIBase` as the router's
`NotFoundHandler`.  The v2 path regexps are modelled with simplified
segment checks (name segments nonempty, digests contain a colon); the
`StrictSlash` redirect is omitted. -/

/-- Splits a character list on `/`, like Go path splitting:
`"/v2/"` yields `["", "v2", ""]`. -/
def splitSegsAux : List Char → List Char → List String
  | [], acc => [String.mk acc.reverse]
  | c :: cs, acc =>
    if c = '/' then String.mk acc.reverse :: splitSegsAux cs []
    else splitSegsAux cs (c :: acc)

/-- The `/`-separated segments of a path. -/
def pathSegs (p : String) : List String := splitSegsAux p.data []

/-- The registry v2 routes registered by `RouterWithPrefix`. -/
inductive V2Route where
  | base
  | manifest
  | tags
  | blob
  | blobUpload
  | blobUploadChunk
  | catalog
deriving DecidableEq

/-- Strips the configured URL path head (`Config.Prefix`) off the request
path, as `RouterWithPrefix` does with a `PathPrefix` subrouter. -/
def stripCfgHead (pfx path : String) : Option String :=
  if pfx = "" then some path
  else
    match stripHead pfx.data path.data with
    | some rest => some (String.mk rest)
    | none => none

/-- Matches a request path against the registered v2 route patterns
(simplified as described above). -/
def matchV2Path (pfx path : String) : Option V2Route :=
  match stripCfgHead pfx path with
  | none => none
  | some p =>
    match pathSegs p with
    | "" :: "v2" :: rest =>
      match rest with
      | [""] => some .base
      | ["_catalog"] => some .catalog
      | _ =>
        match rest.reverse with
        | ref :: "manifests" :: nameRev =>
          if nameRev ≠ [] ∧ ref ≠ "" ∧ nameRev.all (fun s => s ≠ "") then some .manifest
          else none
        | "list" :: "tags" :: nameRev =>
          if nameRev ≠ [] ∧ nameRev.all (fun s => s ≠ "") then some .tags
          else none
        | "" :: "uploads" :: "blobs" :: nameRev =>
          if nameRev ≠ [] ∧ nameRev.all (fun s => s ≠ "") then some .blobUpload
          else none
        | uuid :: "uploads" :: "blobs" :: nameRev =>
          if nameRev ≠ [] ∧ uuid ≠ "" ∧ nameRev.all (fun s => s ≠ "") then some .blobUploadChunk
          else none
        | dg :: "blobs" :: nameRev =>
          if nameRev ≠ [] ∧ dg.contains ':' ∧ nameRev.all (fun s => s ≠ "") then some .blob
          else none
        | _ => none
    | _ => none

/-- The handlers a request can be dispatched to after `registerHandler`
ran (registry.go lines 395-404). -/
inductive HandlerKind where
  | apiBase
  | manifestH
  | blobH
  | muxNotFound
deriving DecidableEq

/-- Dispatch of `registerHandler` (registry.go lines 395-404): base goes to
`handleAPIBase`, manifest and blob to their handlers, a matched route with
no handler attached (tags, catalog, uploads) to gorilla's default 404, and
an unmatched path to the router's `NotFoundHandler`, which is
`handleAPIBase` (line 403). -/
def routeHandler (pfx path : String) : HandlerKind :=
  match matchV2Path pfx path with
  | some .base => .apiBase
  | some .manifest => .manifestH
  | some .blob => .blobH
  | some _ => .muxNotFound
  | none => .apiBase

/-! ## Basic authentication (`requireAuthentication`, registry.go lines
375-392, and the wiring in `Serve`, lines 212-215)

`(*http.Request).BasicAuth` from the Go standard library: the
`Authorization` header must start with `Basic ` (ASCII case-insensitive),
the remainder must decode as standard base64, and the decoded bytes must
contain a colon separating username and password. -/

/-- ASCII lower-casing, as `ascii.EqualFold` folds. -/
def asciiLower (c : Char) : Char :=
  if 'A' ≤ c ∧ c ≤ 'Z' then Char.ofNat (c.toNat + 32) else c

/-- The value of a standard base64 alphabet character. -/
def b64Val (c : Char) : Option Nat :=
  if 'A' ≤ c ∧ c ≤ 'Z' then some (c.toNat - 65)
  else if 'a' ≤ c ∧ c ≤ 'z' then some (c.toNat - 97 + 26)
  else if '0' ≤ c ∧ c ≤ '9' then some (c.toNat - 48 + 52)
  else if c = '+' then some 62
  else if c = '/' then some 63
  else none

/-- Decodes a padded standard-base64 character stream quad by quad into
bytes; `=` padding is only accepted at the end of the final quad. -/
def b64DecodeQuads : List Char → Option (List Nat)
  | [] => some []
  | c1 :: c2 :: c3 :: c4 :: rest =>
    match b64Val c1, b64Val c2 with
    | some v1, some v2 =>
      if rest = [] ∧ c4 = '=' then
        if c3 = '=' then some [v1 * 4 + v2 / 16]
        else
          match b64Val c3 with
          | some v3 => some [v1 * 4 + v2 / 16, v2 % 16 * 16 + v3 / 4]
          | none => none
      else
        match b64Val c3, b64Val c4, b64DecodeQuads rest with
        | some v3, some v4, some bs =>
          some ([v1 * 4 + v2 / 16, v2 % 16 * 16 + v3 / 4, v3 % 4 * 64 + v4] ++ bs)
        | _, _, _ => none
    | _, _ => none
  | _ => none

/-- Go `base64.StdEncoding.DecodeString`: newline characters are ignored,
everything else must be valid padded base64. -/
def base64Decode (s : String) : Option (List Nat) :=
  b64DecodeQuads (s.data.filter (fun c => c ≠ '\n' ∧ c ≠ '\r'))

/-- Go `strings.Cut(cs, ":")` on a byte string: split at the first colon
(byte 58); `none` when there is no colon. -/
def cutColon : List Nat → Option (List Nat × List Nat)
  | [] => none
  | b :: bs =>
    if b = 58 then some ([], bs)
    else
      match cutColon bs with
      | some (u, p) => some (b :: u, p)
      | none => none

/-- Go `parseBasicAuth`: case-insensitive `Basic ` head, base64 payload,
colon-separated credentials. -/
def parseBasicAuthGo (auth : String) : Option (List Nat × List Nat) :=
  if (auth.data.take 6).map asciiLower = "basic ".data then
    match base64Decode (String.mk (auth.data.drop 6)) with
    | some bytes => cutColon bytes
    | none => none
  else none

/-- Go `(*http.Request).BasicAuth()` on the embedded request: `none` is
Go's `ok = false`. -/
def basicAuth (r : Request) : Option (List Nat × List Nat) :=
  match r.authorization with
  | none => none
  | some auth => parseBasicAuthGo auth

/-- The 401 response produced by the `fail` closure of
`requireAuthentication` (registry.go lines 377-380). -/
def unauthorizedResponse : Response :=
  { status := 401
    headers := [("WWW-Authenticate", "Basic")]
    body := ""
    errorCodes := [] }

/-- `requireAuthentication` (registry.go lines 375-392).  The Bool records
whether the wrapped handler was invoked. -/
def requireAuthentication (h : Request → Response) (r : Request) : Response × Bool :=
  match basicAuth r with
  | none => (unauthorizedResponse, false)
  | some _ => (h r, true)

/-- The handler `Serve` installs at `/` (registry.go lines 212-215): the
routes, wrapped in `requireAuthentication` when `RequireAuth` is set. -/
def serveHandler (requireAuth : Bool) (h : Request → Response) (r : Request) :
    Response × Bool :=
  if requireAuth then requireAuthentication h r else (h r, true)

/-! ## Image-spec provider wiring (`NewRegistry`, registry.go lines 140-193) -/

/-- An image spec, reduced to the fields the claims need. -/
structure ImageSpec where
  baseRef : String
  ideRef : String
deriving DecidableEq

/-- The provider values `NewRegistry` builds: the remote RPC provider for
an address, or a provider wrapped in a bounded LRU cache. -/
inductive ImageSpecProvider where
  | remote (addr : String)
  | caching (capacity : Nat) (inner : ImageSpecProvider)
deriving DecidableEq

/-- Modelled from the spec: the provider-name constant
`api.ProviderPrefixRemote` of the registry-facade API package is not among
the sources at hand; the spec routes remote specs under `/v2/remote/...`. -/
def providerTagRemote : String := "remote"

/-- The spec-provider map built by `NewRegistry` (registry.go lines
140-193): empty without a remote provider configuration, otherwise the
remote provider at the configured address wrapped by
`NewCachingSpecProvider(128, ...)` and registered under the remote
provider prefix (lines 188-192). -/
def buildSpecProviderMap (cfg : Config) : List (String × ImageSpecProvider) :=
  match cfg.remoteSpecProvider with
  | none => []
  | some rsp => [(providerTagRemote, .caching 128 (.remote rsp.addr))]

/-- Modelled from the spec: `NewCachingSpecProvider` is not among the
sources at hand.  The spec says the remote provider's responses are cached
by a bounded LRU keyed by the resolved name, with no TTL and no caching of
negative results.  `rpc` models the remote `GetImageSpec` call; the result
triple is (answer, new cache, whether the RPC was consulted).  Promotion
of hit entries is omitted. -/
def getSpecCached (rpc : String → Option ImageSpec) (cap : Nat)
    (cache : List (String × ImageSpec)) (name : String) :
    Option ImageSpec × List (String × ImageSpec) × Bool :=
  match cache.lookup name with
  | some s => (some s, cache, false)
  | none =>
    match rpc name with
    | none => (none, cache, true)
    | some s => (some s, ((name, s) :: cache).take cap, true)

/-! ## Concrete fixtures used by the witnesses -/

/-- A concrete image spec. -/
def specFix : ImageSpec := ⟨"docker.io/library/base", "docker.io/gitpod/ide"⟩

/-- A concrete remote `GetImageSpec` environment. -/
def rpcFix : String → Option ImageSpec :=
  fun n => if n = "acme/alice" then some specFix else none

/-- A concrete remote-spec-provider configuration. -/
def rspFix : RemoteSpecCfg := ⟨"ws-manager:8080", none⟩

/-- A configuration with a remote spec provider. -/
def cfgRemoteFix : Config :=
  ⟨32223, "", [], some rspFix, "/mnt/store", false, none, ⟨false, ""⟩⟩

/-- A configuration with handover enabled. -/
def cfgHandoverFix : Config :=
  ⟨8080, "", [], none, "/mnt/store", false, none, ⟨true, "/mnt/handover"⟩⟩

/-- A debug environment with the root-prefix variable set. -/
def envTproot : Env := ⟨"/tmp/telepresence"⟩

/-- A configuration naming the file paths touched by the root prefix. -/
def cfgPathsFix : Config :=
  ⟨443, "", [⟨"/config/layer.tar.gz", "file"⟩], none, "/mnt/store", false,
   some ⟨"/certs/tls.crt", "/certs/tls.key"⟩, ⟨false, ""⟩⟩

/-- Concrete mTLS material paths. -/
def rtlsFix : RemoteTLS := ⟨"/certs/ca.crt", "/certs/client.crt", "/certs/client.key"⟩

/-- Concrete serving TLS paths. -/
def stlsFix : ServerTLS := ⟨"/certs/tls.crt", "/certs/tls.key"⟩

/-- A request without an Authorization header. -/
def reqNoAuth : Request := ⟨"GET", "/v2/", none⟩

/-- A handler standing in for the registry routes. -/
def routesFix : Request → Response := fun _ => apiBaseResponse

/-! ## Helper lemmas -/

/-- Stripping an expected head off the same head followed by a tail
succeeds and returns the tail. -/
theorem stripHead_append (xs ys : List Char) : stripHead xs (xs ++ ys) = some ys := by
  induction xs with
  | nil => rfl
  | cons a as ih => simp [stripHead, ih]

/-- `takeWhile` passes over a block that satisfies the predicate. -/
theorem takeWhile_append_block (p : Char → Bool) (l₁ l₂ : List Char)
    (h : ∀ c ∈ l₁, p c = true) :
    (l₁ ++ l₂).takeWhile p = l₁ ++ l₂.takeWhile p := by
  induction l₁ with
  | nil => simp
  | cons a as ih =>
    have ha : p a = true := h a (List.mem_cons_self a as)
    simp [List.takeWhile_cons, ha, ih (fun c hc => h c (List.mem_cons_of_mem a hc))]

/-- `dropWhile` drops a whole block that satisfies the predicate. -/
theorem dropWhile_append_block (p : Char → Bool) (l₁ l₂ : List Char)
    (h : ∀ c ∈ l₁, p c = true) :
    (l₁ ++ l₂).dropWhile p = l₂.dropWhile p := by
  induction l₁ with
  | nil => simp
  | cons a as ih =>
    have ha : p a = true := h a (List.mem_cons_self a as)
    simp [List.dropWhile_cons, ha, ih (fun c hc => h c (List.mem_cons_of_mem a hc))]

/-- The digit characters emitted by `Nat.digitChar` below base 10. -/
theorem digitChar_isDigit {n : Nat} (h : n < 10) : (Nat.digitChar n).isDigit = true := by
  interval_cases n <;> decide

/-- Every character `Nat.toDigitsCore` emits in base 10 is a decimal digit. -/
theorem toDigitsCore_digits :
    ∀ (fuel n : Nat) (ds : List Char), (∀ c ∈ ds, c.isDigit = true) →
      ∀ c ∈ Nat.toDigitsCore 10 fuel n ds, c.isDigit = true := by
  intro fuel
  induction fuel with
  | zero => intro n ds h; simpa [Nat.toDigitsCore] using h
  | succ f ih =>
    intro n ds h
    have hd : (Nat.digitChar (n % 10)).isDigit = true :=
      digitChar_isDigit (Nat.mod_lt n (by norm_num))
    have hcons : ∀ c ∈ Nat.digitChar (n % 10) :: ds, c.isDigit = true := by
      intro c hc
      rcases List.mem_cons.mp hc with rfl | hc
      · exact hd
      · exact h c hc
    simp only [Nat.toDigitsCore]
    split
    · exact hcons
    · exact ih (n / 10) _ hcons

/-- `Nat.toDigitsCore` with positive fuel emits at least one character. -/
theorem toDigitsCore_ne_nil :
    ∀ (fuel n : Nat) (ds : List Char), Nat.toDigitsCore 10 (fuel + 1) n ds ≠ [] := by
  intro fuel
  induction fuel with
  | zero =>
    intro n ds
    simp only [Nat.toDigitsCore]
    split <;> simp
  | succ f ih =>
    intro n ds
    simp only [Nat.toDigitsCore]
    split
    · simp
    · exact ih _ _

/-- The decimal representation of a natural number consists of digits. -/
theorem repr_data_digits (n : Nat) : ∀ c ∈ (Nat.repr n).data, c.isDigit = true := by
  intro c hc
  exact toDigitsCore_digits (n + 1) n [] (by simp) c hc

/-- The decimal representation of a natural number is nonempty. -/
theorem repr_data_ne_nil (n : Nat) : (Nat.repr n).data ≠ [] :=
  toDigitsCore_ne_nil n n []

/-! ## Claim theorems -/

/-- Claim C1 (code bug): on a handover directory that contains exactly one
entry, a Unix socket named `rf-handover-1700000000.sock`, `ReceiveHandover`
returns `nil, nil` and never attempts the handover, because
`f.Type()*os.ModeSocket` is a `uint32` multiplication whose result wraps to
zero for every file type, so every entry is skipped; the scan with the
intended socket test (`&`) would have picked exactly this socket file. -/
theorem receive_handover_skips_all_sockets :
    ReceiveHandover "/mnt/sockets"
        (some [⟨"rf-handover-1700000000.sock", modeSocket⟩]) = .noSocket ∧
    isUnixSocket ⟨"rf-handover-1700000000.sock", modeSocket⟩ = true ∧
    specSelectHandoverName [⟨"rf-handover-1700000000.sock", modeSocket⟩] "" =
      "rf-handover-1700000000.sock" := by
  refine ⟨by decide, by decide, by decide⟩

/-- Claim C2 (counterexample): when the donor's handover offer fails (no
server error pending), `Serve` returns `nil` - exactly the value it returns
after a completed handover shutdown - rather than continuing to serve, so
the claim that `Serve` does not return as if shutdown had completed is
false on the code. -/
theorem failed_offer_returns_like_completed_shutdown :
    (serveSelect none OfferStep.offerFails).err = none ∧
    (serveSelect none (OfferStep.offerSucceeds none)).err = none ∧
    serveSelect none OfferStep.offerFails =
      { err := none, waitedShutdown := false } := by
  exact ⟨rfl, rfl, rfl⟩

/-- Claim C2 (amended): if the donor's handover offer fails, the offer
goroutine closes the handover channel without ever signalling, and `Serve`'s
select receives the closed-channel value and returns `nil` immediately,
without waiting for a server shutdown - the donor does not resume serving
inside `Serve`. -/
theorem failed_offer_serve_returns_nil (run : OfferStep)
    (h : hocSignals run = []) :
    serveSelect none run = { err := none, waitedShutdown := false } := by
  simp [serveSelect, h]

/-- Witness for the amended claim C2 at the failed-offer step. -/
theorem failed_offer_serve_returns_nil_witness :
    hocSignals OfferStep.offerFails = [] ∧
    serveSelect none OfferStep.offerFails = { err := none, waitedShutdown := false } :=
  ⟨rfl, failed_offer_serve_returns_nil OfferStep.offerFails rfl⟩

/-- Claim C3 (counterexample): the request path `/unsupported/route` matches
none of the registered v2 routes, yet it is answered by the API-base
yes-man handler: HTTP 200 with the empty JSON object and no error envelope,
not an `UNSUPPORTED` registry error. -/
theorem unmatched_route_gets_success_response :
    matchV2Path "" "/unsupported/route" = none ∧
    routeHandler "" "/unsupported/route" = .apiBase ∧
    apiBaseResponse.status = 200 ∧
    "UNSUPPORTED" ∉ apiBaseResponse.errorCodes := by
  refine ⟨by decide, by decide, rfl, by decide⟩

/-- Claim C3 (amended): every HTTP request whose path matches none of the
registered registry v2 route patterns is dispatched to the router's
`NotFoundHandler`, which is `handleAPIBase`: a success response, HTTP 200
with body `{}`, carrying no `UNSUPPORTED` error envelope. -/
theorem unmatched_route_answered_by_api_base (pfx path : String)
    (h : matchV2Path pfx path = none) :
    routeHandler pfx path = .apiBase ∧
    apiBaseResponse.status = 200 ∧
    apiBaseResponse.body = "\x7b\x7d" ∧
    "UNSUPPORTED" ∉ apiBaseResponse.errorCodes := by
  refine ⟨?_, rfl, rfl, by decide⟩
  simp [routeHandler, h]

/-- Witness for the amended claim C3 at a concrete unmatched path. -/
theorem unmatched_route_answered_by_api_base_witness :
    matchV2Path "" "/healthz" = none ∧
    (routeHandler "" "/healthz" = .apiBase ∧
     apiBaseResponse.status = 200 ∧
     apiBaseResponse.body = "\x7b\x7d" ∧
     "UNSUPPORTED" ∉ apiBaseResponse.errorCodes) :=
  ⟨by decide, unmatched_route_answered_by_api_base "" "/healthz" (by decide)⟩

/-- Claim C4: whenever the root-prefix variable `TELEPRESENCE_ROOT` is set,
it is prepended (by `filepath.Join`) to every file path recognized in the
configuration: the blob store root, the remote spec provider's TLS
ca/crt/key, the server TLS crt/key, and (modelled from the spec) the
static file layer refs. -/
theorem telepresence_root_prepended (env : Env) (cfg : Config)
    (rt : RemoteTLS) (st : ServerTLS) (sl : StaticLayerCfg)
    (h : env.telepresenceRoot ≠ "") (_hfile : sl.typ = "file") :
    resolvedStorePath env cfg = joinPath env.telepresenceRoot cfg.store ∧
    resolvedRemoteTLSPaths env rt =
      (joinPath env.telepresenceRoot rt.authority,
       joinPath env.telepresenceRoot rt.certificate,
       joinPath env.telepresenceRoot rt.privateKey) ∧
    resolvedServeTLSPaths env st =
      (joinPath env.telepresenceRoot st.certificate,
       joinPath env.telepresenceRoot st.privateKey) ∧
    resolvedStaticFileRef env sl.ref = joinPath env.telepresenceRoot sl.ref := by
  refine ⟨?_, ?_, ?_, ?_⟩ <;>
    simp [resolvedStorePath, resolvedRemoteTLSPaths, resolvedServeTLSPaths,
      resolvedStaticFileRef, applyTelepresenceRoot, h]

/-- Witness for claim C4 on a concrete debug environment. -/
theorem telepresence_root_prepended_witness :
    envTproot.telepresenceRoot ≠ "" ∧
    (⟨"/config/layer.tar.gz", "file"⟩ : StaticLayerCfg).typ = "file" ∧
    (resolvedStorePath envTproot cfgPathsFix =
       joinPath envTproot.telepresenceRoot cfgPathsFix.store ∧
     resolvedRemoteTLSPaths envTproot rtlsFix =
       (joinPath envTproot.telepresenceRoot rtlsFix.authority,
        joinPath envTproot.telepresenceRoot rtlsFix.certificate,
        joinPath envTproot.telepresenceRoot rtlsFix.privateKey) ∧
     resolvedServeTLSPaths envTproot stlsFix =
       (joinPath envTproot.telepresenceRoot stlsFix.certificate,
        joinPath envTproot.telepresenceRoot stlsFix.privateKey) ∧
     resolvedStaticFileRef envTproot (⟨"/config/layer.tar.gz", "file"⟩ : StaticLayerCfg).ref =
       joinPath envTproot.telepresenceRoot
         (⟨"/config/layer.tar.gz", "file"⟩ : StaticLayerCfg).ref) :=
  ⟨by decide, rfl,
   telepresence_root_prepended envTproot cfgPathsFix rtlsFix stlsFix
     ⟨"/config/layer.tar.gz", "file"⟩ (by decide) rfl⟩

/-- Claim C5: with handover enabled and a sockets directory configured, the
receive attempt runs under a 10-second context timeout, and whenever it
does not produce a listener (error or `nil`), `Serve` binds its own TCP
listener on the configured port instead of failing. -/
theorem handover_receive_timeout_and_fallback (cfg : Config) (recv : RecvOutcome)
    (h1 : cfg.handover.enabled = true) (h2 : cfg.handover.sockets ≠ "")
    (h3 : recv ≠ RecvOutcome.gotListener) :
    acquireListener cfg recv =
      { recvTimeoutSecs := some 10, plan := .bindOwn (":" ++ Nat.repr cfg.port) } := by
  cases recv with
  | gotListener => exact absurd rfl h3
  | failed => simp [acquireListener, h1, h2, serveAddr]
  | noneAvail => simp [acquireListener, h1, h2, serveAddr]

/-- Witness for claim C5 on a concrete configuration and a failed receive. -/
theorem handover_receive_timeout_and_fallback_witness :
    cfgHandoverFix.handover.enabled = true ∧
    cfgHandoverFix.handover.sockets ≠ "" ∧
    RecvOutcome.failed ≠ RecvOutcome.gotListener ∧
    acquireListener cfgHandoverFix RecvOutcome.failed =
      { recvTimeoutSecs := some 10,
        plan := .bindOwn (":" ++ Nat.repr cfgHandoverFix.port) } :=
  ⟨rfl, by decide, by decide,
   handover_receive_timeout_and_fallback cfgHandoverFix RecvOutcome.failed rfl
     (by decide) (by decide)⟩

/-- Claim C6: with `requireAuth` enabled, every request whose Authorization
header yields no parseable Basic credentials is answered with HTTP 401 and
a `WWW-Authenticate: Basic` header, and the wrapped registry handler is not
invoked. -/
theorem missing_basic_auth_rejected (h : Request → Response) (r : Request)
    (hna : basicAuth r = none) :
    serveHandler true h r = (unauthorizedResponse, false) ∧
    unauthorizedResponse.status = 401 ∧
    ("WWW-Authenticate", "Basic") ∈ unauthorizedResponse.headers := by
  refine ⟨?_, rfl, by decide⟩
  simp [serveHandler, requireAuthentication, hna]

/-- Witness for claim C6 on a request without an Authorization header. -/
theorem missing_basic_auth_rejected_witness :
    basicAuth reqNoAuth = none ∧
    (serveHandler true routesFix reqNoAuth = (unauthorizedResponse, false) ∧
     unauthorizedResponse.status = 401 ∧
     ("WWW-Authenticate", "Basic") ∈ unauthorizedResponse.headers) :=
  ⟨rfl, missing_basic_auth_rejected routesFix reqNoAuth rfl⟩

/-- Claim C7: authentication is never actually validated.
`requireAuthentication` forwards every request with a parseable Basic
header to the wrapped handler, whatever the credentials are, and responds
401 exactly when the Basic header is absent or unparseable; a concrete
well-formed header (`foo:bar`) is indeed forwarded. -/
theorem auth_never_validated (h : Request → Response) (r : Request) :
    requireAuthentication h r =
      (if (basicAuth r).isSome then (h r, true) else (unauthorizedResponse, false)) ∧
    (basicAuth ⟨"GET", "/v2/", some "Basic Zm9vOmJhcg=="⟩).isSome = true := by
  constructor
  · cases hb : basicAuth r <;> simp [requireAuthentication, hb]
  · decide

/-- Claim C8: a completed handover is a normal exit - once the handover is
initiated and the server shutdown has finished (whatever the shutdown
error), `Serve` waits for the drain and returns `nil`, and `MustServe`
lets the process exit with code 0. -/
theorem completed_handover_exits_zero (shutdownErr : Option String) :
    serveSelect none (OfferStep.offerSucceeds shutdownErr) =
      { err := none, waitedShutdown := true } ∧
    mustServeExitCode
      (serveSelect none (OfferStep.offerSucceeds shutdownErr)).err = 0 :=
  ⟨rfl, rfl⟩

/-- Claim C9: the donor's handover socket is published in the configured
sockets directory under `rf-handover-<unix-seconds>.sock`, where the
decimal digits are exactly the Unix timestamp taken at the time of the
offer; the filename matches the spec's socket-file grammar. -/
theorem offer_socket_name_grammar (loc : String) (now : Nat) :
    offerSocketPath loc now = joinPath loc (socketFileName now) ∧
    stripHead "rf-handover-".data (socketFileName now).data =
      some ((Nat.repr now).data ++ ".sock".data) ∧
    isHandoverSocketName (socketFileName now) = true := by
  have hdata : (socketFileName now).data =
      "rf-handover-".data ++ ((Nat.repr now).data ++ ".sock".data) := by
    simp [socketFileName, String.data_append, List.append_assoc]
  refine ⟨rfl, ?_, ?_⟩
  · rw [hdata, stripHead_append]
  · unfold isHandoverSocketName
    rw [hdata, stripHead_append]
    show (decide (((Nat.repr now).data ++ ".sock".data).takeWhile Char.isDigit ≠ []) &&
        (((Nat.repr now).data ++ ".sock".data).dropWhile Char.isDigit == ".sock".data)) = true
    rw [takeWhile_append_block Char.isDigit _ _ (repr_data_digits now),
        dropWhile_append_block Char.isDigit _ _ (repr_data_digits now)]
    have h2 : ".sock".data.takeWhile Char.isDigit = [] := by decide
    have h3 : ".sock".data.dropWhile Char.isDigit = ".sock".data := by decide
    rw [h2, h3]
    simp [repr_data_ne_nil now]

/-- Claim C10: with a remote spec provider configured, the provider
registered under the remote provider prefix is the remote RPC provider at
the configured address wrapped in an LRU cache of capacity 128, and
(modelled from the spec) the cache is keyed by the resolved name: a miss
consults the RPC and caches the result under the name, a subsequent get of
the same name is served from the cache without the RPC. -/
theorem remote_spec_provider_cached (cfg : Config) (rsp : RemoteSpecCfg)
    (rpc : String → Option ImageSpec) (s : ImageSpec) (name : String)
    (h1 : cfg.remoteSpecProvider = some rsp) (h2 : rpc name = some s) :
    (buildSpecProviderMap cfg).lookup providerTagRemote =
      some (.caching 128 (.remote rsp.addr)) ∧
    getSpecCached rpc 128 [] name = (some s, [(name, s)], true) ∧
    getSpecCached rpc 128 [(name, s)] name = (some s, [(name, s)], false) := by
  refine ⟨?_, ?_, ?_⟩
  · simp [buildSpecProviderMap, h1, List.lookup]
  · simp [getSpecCached, List.lookup, h2]
  · simp [getSpecCached, List.lookup]

/-- Witness for claim C10 on a concrete configuration and RPC environment. -/
theorem remote_spec_provider_cached_witness :
    cfgRemoteFix.remoteSpecProvider = some rspFix ∧
    rpcFix "acme/alice" = some specFix ∧
    ((buildSpecProviderMap cfgRemoteFix).lookup providerTagRemote =
       some (.caching 128 (.remote rspFix.addr)) ∧
     getSpecCached rpcFix 128 [] "acme/alice" =
       (some specFix, [("acme/alice", specFix)], true) ∧
     getSpecCached rpcFix 128 [("acme/alice", specFix)] "acme/alice" =
       (some specFix, [("acme/alice", specFix)], false)) :=
  ⟨rfl, by decide,
   remote_spec_provider_cached cfgRemoteFix rspFix rpcFix specFix "acme/alice"
     rfl (by decide)⟩

end RegistryFacade
